import Mathlib

/-!
Verification of the rule-based scoring engine and backtest binning
procedure of the `sapa` repository.

The embedding models:
- `score_to_rating` (src/analysis_engine.py, lines 5-10): the Rating Mapper,
  a threshold function from an integer score to one of five Korean labels.
- `_score_from_row` (src/analysis_engine.py, lines 39-139): the Row Scorer,
  decomposed here into one definition per factor block of the source, summed
  and concatenated in the source's fixed evaluation order, then clamped.
  Indicator values are modelled as rationals (`Option ℚ` for possibly
  undefined indicators, mirroring `pd.notna` checks); reason strings are
  modelled by an inductive `Reason` type with one constructor per distinct
  reason string of the source, numeric constructors carrying the value that
  the source interpolates into the string.
- the `pos20` computation of `compute_indicators`
  (src/analysis_engine.py, line 35) with its 1e-9 epsilon guard.
- the data-sufficiency guard of `backtest_score_bins`
  (src/backtest_engine.py, lines 18-22) and its five score bins
  (lines 39-45).  The success branch of the backtest aggregates
  floating-point statistics over pandas rolling windows (Wilder RSI,
  rolling standard deviations with a square root) and is not needed by any
  claim; only the guard and the bin definitions are embedded.
-/

/-- The Rating Mapper, `score_to_rating` of src/analysis_engine.py lines 5-10:
inclusive lower-bound thresholds 80/60/40/20 onto five Korean rating labels
(적극매수 = Strong Buy, 매수 = Buy, 중립 = Neutral, 매도 = Sell,
적극매도 = Strong Sell). -/
def score_to_rating (score : ℤ) : String :=
  if score ≥ 80 then "적극매수"
  else if score ≥ 60 then "매수"
  else if score ≥ 40 then "중립"
  else if score ≥ 20 then "매도"
  else "적극매도"

/-- Ordinal rank of a rating label in the fixed order
Strong Sell < Sell < Neutral < Buy < Strong Buy (0 to 4). -/
def ratingRank (r : String) : ℕ :=
  if r = "적극매수" then 4
  else if r = "매수" then 3
  else if r = "중립" then 2
  else if r = "매도" then 1
  else 0

/-- One row of computed indicators as consumed by `_score_from_row`
(src/analysis_engine.py lines 39-50): `close` is always present; every
other indicator is either a defined number or undefined (NaN in the
source, `none` here). -/
structure IndicatorRow where
  close : ℚ
  rsi14 : Option ℚ
  ma20 : Option ℚ
  ma60 : Option ℚ
  ma120 : Option ℚ
  vol_ratio : Option ℚ
  vol20_pct : Option ℚ
  mom20 : Option ℚ
  mom60 : Option ℚ
  dd252 : Option ℚ
  pos20 : Option ℚ
  deriving DecidableEq, Repr

/-- One constructor per distinct reason string emitted by `_score_from_row`;
constructors for reasons that interpolate an indicator value carry that
value. -/
inductive Reason where
  | ma20Above | ma20Below
  | ma60Above | ma60Below
  | ma120Above | ma120Below
  | maAlignedBull | maAlignedBear
  | rsiOversold (r : ℚ) | rsiOverbought (r : ℚ) | rsiNeutral (r : ℚ)
  | mom20Up (m : ℚ) | mom20Down (m : ℚ)
  | mom60Up (m : ℚ) | mom60Down (m : ℚ)
  | volSurge (v : ℚ) | volShrink (v : ℚ)
  | volHigh (v : ℚ) | volLow (v : ℚ)
  | ddDeep (d : ℚ) | ddNearHigh
  | pos20Low | pos20High
  deriving DecidableEq, Repr

/-- Factor 1 of `_score_from_row` (lines 57-59): close vs ma20, ±8.
The tie `close = ma20` falls in the `else` branch because the source's
`above` helper uses strict `close > float(x)`. -/
def ma20Factor (row : IndicatorRow) : ℤ × List Reason :=
  match row.ma20 with
  | none => (0, [])
  | some m => if row.close > m then (8, [.ma20Above]) else (-8, [.ma20Below])

/-- Factor 2 (lines 60-62): close vs ma60, ±10. -/
def ma60Factor (row : IndicatorRow) : ℤ × List Reason :=
  match row.ma60 with
  | none => (0, [])
  | some m => if row.close > m then (10, [.ma60Above]) else (-10, [.ma60Below])

/-- Factor 3 (lines 63-65): close vs ma120, ±6. -/
def ma120Factor (row : IndicatorRow) : ℤ × List Reason :=
  match row.ma120 with
  | none => (0, [])
  | some m => if row.close > m then (6, [.ma120Above]) else (-6, [.ma120Below])

/-- Factor 4 (lines 67-71): moving-average alignment, only when all three
MAs are defined; ma20 > ma60 > ma120 gives +8, ma20 < ma60 < ma120 gives
-8, any other ordering contributes nothing. -/
def alignFactor (row : IndicatorRow) : ℤ × List Reason :=
  match row.ma20, row.ma60, row.ma120 with
  | some a, some b, some c =>
      if a > b ∧ b > c then (8, [.maAlignedBull])
      else if a < b ∧ b < c then (-8, [.maAlignedBear])
      else (0, [])
  | _, _, _ => (0, [])

/-- Factor 5 (lines 73-80): RSI; below 30 gives +10, above 70 gives -10,
otherwise 0 but a neutral reason is still emitted. -/
def rsiFactor (row : IndicatorRow) : ℤ × List Reason :=
  match row.rsi14 with
  | none => (0, [])
  | some r =>
      if r < 30 then (10, [.rsiOversold r])
      else if r > 70 then (-10, [.rsiOverbought r])
      else (0, [.rsiNeutral r])

/-- Factor 6 (lines 82-87): 20-day momentum, above 0.08 gives +6, below
-0.08 gives -6. -/
def mom20Factor (row : IndicatorRow) : ℤ × List Reason :=
  match row.mom20 with
  | none => (0, [])
  | some m =>
      if m > 0.08 then (6, [.mom20Up m])
      else if m < -0.08 then (-6, [.mom20Down m])
      else (0, [])

/-- Factor 7 (lines 89-94): 60-day momentum, above 0.15 gives +6, below
-0.15 gives -6. -/
def mom60Factor (row : IndicatorRow) : ℤ × List Reason :=
  match row.mom60 with
  | none => (0, [])
  | some m =>
      if m > 0.15 then (6, [.mom60Up m])
      else if m < -0.15 then (-6, [.mom60Down m])
      else (0, [])

/-- Factor 8 (lines 96-101): volume ratio, at least 1.8 gives +8, at most
0.6 gives -3. -/
def volRatioFactor (row : IndicatorRow) : ℤ × List Reason :=
  match row.vol_ratio with
  | none => (0, [])
  | some vr =>
      if vr ≥ 1.8 then (8, [.volSurge vr])
      else if vr ≤ 0.6 then (-3, [.volShrink vr])
      else (0, [])

/-- Factor 9 (lines 103-108): 20-day realized volatility, at least 35
gives -5, at most 15 gives +2. -/
def vol20Factor (row : IndicatorRow) : ℤ × List Reason :=
  match row.vol20_pct with
  | none => (0, [])
  | some v =>
      if v ≥ 35 then (-5, [.volHigh v])
      else if v ≤ 15 then (2, [.volLow v])
      else (0, [])

/-- Factor 10 (lines 110-115): drawdown from the 252-day high, at most
-0.30 gives +5, at least -0.05 (near the high) gives -3. -/
def dd252Factor (row : IndicatorRow) : ℤ × List Reason :=
  match row.dd252 with
  | none => (0, [])
  | some dd =>
      if dd ≤ -0.30 then (5, [.ddDeep dd])
      else if dd ≥ -0.05 then (-3, [.ddNearHigh])
      else (0, [])

/-- Factor 11 (lines 117-122): 20-day range position, at most 0.15 gives
+3, at least 0.85 gives -2. -/
def pos20Factor (row : IndicatorRow) : ℤ × List Reason :=
  match row.pos20 with
  | none => (0, [])
  | some p =>
      if p ≤ 0.15 then (3, [.pos20Low])
      else if p ≥ 0.85 then (-2, [.pos20High])
      else (0, [])

/-- The raw signed sum of `_score_from_row` before clamping: base 50 plus
the eleven factor deltas, in the source's sequential order of `s +=`
updates (lines 52-122). -/
def rawScore (row : IndicatorRow) : ℤ :=
  50 + (ma20Factor row).1 + (ma60Factor row).1 + (ma120Factor row).1
     + (alignFactor row).1 + (rsiFactor row).1 + (mom20Factor row).1
     + (mom60Factor row).1 + (volRatioFactor row).1 + (vol20Factor row).1
     + (dd252Factor row).1 + (pos20Factor row).1

/-- The reason list of `_score_from_row`: the factors' reason emissions
concatenated in the source's fixed evaluation order (lines 53-122). -/
def reasonsOf (row : IndicatorRow) : List Reason :=
  (ma20Factor row).2 ++ (ma60Factor row).2 ++ (ma120Factor row).2
    ++ (alignFactor row).2 ++ (rsiFactor row).2 ++ (mom20Factor row).2
    ++ (mom60Factor row).2 ++ (volRatioFactor row).2 ++ (vol20Factor row).2
    ++ (dd252Factor row).2 ++ (pos20Factor row).2

/-- The Row Scorer `_score_from_row` (src/analysis_engine.py lines 39-139),
returning the clamped score `max(0, min(100, s))` of line 124 together
with the reason list. The `features` snapshot the source also returns is a
verbatim echo of the inputs and is not modelled. -/
def score_from_row (row : IndicatorRow) : ℤ × List Reason :=
  (max 0 (min 100 (rawScore row)), reasonsOf row)

/-- The epsilon guard of the `pos20` indicator
(src/analysis_engine.py line 35), exactly 1e-9. -/
def pos20Eps : ℚ := 1e-9

/-- The `pos20` computation of `compute_indicators`
(src/analysis_engine.py line 35):
`(close - low20) / (high20 - low20 + 1e-9)`, applied pointwise to the
rolling 20-day low/high of close. -/
def pos20Of (close low20 high20 : ℚ) : ℚ :=
  (close - low20) / (high20 - low20 + pos20Eps)

/-- Outcome of the data-sufficiency guard of `backtest_score_bins`:
either the typed failure dict `{ok: False, message: ...}` of
src/backtest_engine.py line 22, or control proceeding into the sampling
loop. -/
inductive BacktestOutcome where
  | failure (message : String)
  | proceed
  deriving DecidableEq, Repr

/-- The insufficient-data message of src/backtest_engine.py line 22. -/
def insufficientDataMsg : String := "백테스트에 필요한 데이터가 부족합니다."

/-- Warm-up start index of the backtest evaluation range,
`start_i = 260` (src/backtest_engine.py line 18). -/
def backtest_start_i : ℤ := 260

/-- Exclusive end index of the backtest evaluation range,
`end_i = len(df) - horizon - 1` (src/backtest_engine.py line 19),
as a function of the series length `n` and the horizon. -/
def backtest_end_i (n horizon : ℕ) : ℤ := (n : ℤ) - horizon - 1

/-- The data-sufficiency guard of `backtest_score_bins`
(src/backtest_engine.py lines 18-22): if `end_i <= start_i` the typed
insufficient-data failure is returned, otherwise evaluation proceeds.
The guard is pure arithmetic on the series length; `compute_indicators`,
which runs before it, only emits undefined values on short series and
never raises. -/
def backtestLengthGate (n horizon : ℕ) : BacktestOutcome :=
  if backtest_end_i n horizon ≤ backtest_start_i then
    .failure insufficientDataMsg
  else
    .proceed

/-- The five score bins of `backtest_score_bins`
(src/backtest_engine.py lines 39-45): `(lo, hi, label)` triples, listed
best to worst. -/
def backtestBins : List (ℤ × ℤ × String) :=
  [ (80, 100, "적극매수권(80-100)"),
    (60, 79,  "매수권(60-79)"),
    (40, 59,  "중립권(40-59)"),
    (20, 39,  "매도권(20-39)"),
    (0,  19,  "적극매도권(0-19)") ]

/-- Bin membership as tested by the source's mask
`(scores >= lo) & (scores <= hi)` (src/backtest_engine.py line 49). -/
def binMember (b : ℤ × ℤ × String) (s : ℤ) : Bool :=
  decide (b.1 ≤ s ∧ s ≤ b.2.1)

/-- The rating label each backtest bin corresponds to, in the bins'
best-to-worst order. -/
def binRatings : List String := ["적극매수", "매수", "중립", "매도", "적극매도"]

/-- The indicator row of the spec's concrete scenario 1:
close=100, ma20=95, ma60=90, ma120=85, rsi14=50, vol_ratio=1.0,
vol20_pct=20, mom20=0, mom60=0, dd252=0, pos20=0.5. -/
def scenario1Row : IndicatorRow :=
  { close := 100, rsi14 := some 50, ma20 := some 95, ma60 := some 90,
    ma120 := some 85, vol_ratio := some 1, vol20_pct := some 20,
    mom20 := some 0, mom60 := some 0, dd252 := some 0, pos20 := some (1/2) }

/-- An indicator row in which every indicator is undefined (the first row
of any series), as in the spec's concrete scenario 3. -/
def allUndefinedRow : IndicatorRow :=
  { close := 100, rsi14 := none, ma20 := none, ma60 := none, ma120 := none,
    vol_ratio := none, vol20_pct := none, mom20 := none, mom60 := none,
    dd252 := none, pos20 := none }

/-- A row whose close ties every defined moving average exactly. -/
def tieRow : IndicatorRow :=
  { close := 100, rsi14 := none, ma20 := some 100, ma60 := some 100,
    ma120 := some 100, vol_ratio := none, vol20_pct := none, mom20 := none,
    mom60 := none, dd252 := none, pos20 := none }

/-- Helper: the rank of the rating assigned to a score, expressed directly
by the thresholds. -/
theorem ratingRank_score_to_rating (s : ℤ) :
    ratingRank (score_to_rating s) =
      if s ≥ 80 then 4 else if s ≥ 60 then 3 else if s ≥ 40 then 2
      else if s ≥ 20 then 1 else 0 := by
  unfold score_to_rating ratingRank
  split_ifs <;> simp_all

/-- Claim C1: for every indicator row (any combination of defined and
undefined indicator values), the Row Scorer's returned score is the raw
signed sum clamped by `max(0, min(100, raw_score))`, and therefore
satisfies `0 ≤ s ≤ 100`. -/
theorem score_from_row_clamped (row : IndicatorRow) :
    (score_from_row row).1 = max 0 (min 100 (rawScore row)) ∧
    0 ≤ (score_from_row row).1 ∧ (score_from_row row).1 ≤ 100 := by
  refine ⟨rfl, ?_, ?_⟩ <;> simp [score_from_row]

/-- Claim C1 witness: the clamp bounds hold at the concrete scenario 1
row. -/
theorem score_from_row_clamped_witness :
    (score_from_row scenario1Row).1 = max 0 (min 100 (rawScore scenario1Row)) ∧
    0 ≤ (score_from_row scenario1Row).1 ∧ (score_from_row scenario1Row).1 ≤ 100 :=
  score_from_row_clamped scenario1Row

/-- Claim C2 counterexample: on the scenario-1 row the Row Scorer does
not return 82 and the rating is not Strong Buy (적극매수): the dd252=0
input triggers the near-52-week-high factor (dd ≥ -0.05, a -3 delta),
which the claim overlooked. -/
theorem scenario1_not_82_strong_buy :
    (score_from_row scenario1Row).1 ≠ 82 ∧
    score_to_rating (score_from_row scenario1Row).1 ≠ "적극매수" := by
  have h79 : (score_from_row scenario1Row).1 = 79 := by
    norm_num [score_from_row, rawScore, scenario1Row, ma20Factor, ma60Factor,
      ma120Factor, alignFactor, rsiFactor, mom20Factor, mom60Factor,
      volRatioFactor, vol20Factor, dd252Factor, pos20Factor]
  rw [h79]
  exact ⟨by decide, by decide⟩

/-- Claim C2 amended: on the scenario-1 row the Row Scorer returns 79
(base 50, +8 above ma20, +10 above ma60, +6 above ma120, +8 bullish MA
alignment, RSI neutral +0, and -3 from the drawdown factor since
dd252 = 0 ≥ -0.05, i.e. near the 52-week high), and the Rating Mapper
maps 79 to Buy (매수). -/
theorem scenario1_score_79_buy :
    (score_from_row scenario1Row).1 = 79 ∧
    score_to_rating (score_from_row scenario1Row).1 = "매수" ∧
    (score_from_row scenario1Row).2 =
      [.ma20Above, .ma60Above, .ma120Above, .maAlignedBull, .rsiNeutral 50,
       .ddNearHigh] := by
  norm_num [score_from_row, rawScore, reasonsOf, scenario1Row, ma20Factor,
    ma60Factor, ma120Factor, alignFactor, rsiFactor, mom20Factor, mom60Factor,
    volRatioFactor, vol20Factor, dd252Factor, pos20Factor, score_to_rating]

/-- Claim C3: the Rating Mapper is total on integer scores in [0,100]
with inclusive lower-bound thresholds 80, 60, 40, 20 (적극매수, 매수,
중립, 매도, else 적극매도), and it is order-preserving: a strictly
higher score never receives a strictly lower rating in the ordinal order
적극매도 < 매도 < 중립 < 매수 < 적극매수. -/
theorem score_to_rating_total_monotone :
    (∀ s : ℤ, 0 ≤ s → s ≤ 100 →
      (80 ≤ s → score_to_rating s = "적극매수") ∧
      (60 ≤ s ∧ s < 80 → score_to_rating s = "매수") ∧
      (40 ≤ s ∧ s < 60 → score_to_rating s = "중립") ∧
      (20 ≤ s ∧ s < 40 → score_to_rating s = "매도") ∧
      (s < 20 → score_to_rating s = "적극매도")) ∧
    (∀ s1 s2 : ℤ, s2 < s1 →
      ratingRank (score_to_rating s2) ≤ ratingRank (score_to_rating s1)) := by
  constructor
  · intro s _ _
    unfold score_to_rating
    refine ⟨fun h => ?_, fun h => ?_, fun h => ?_, fun h => ?_, fun h => ?_⟩ <;>
      split_ifs <;> first | rfl | omega
  · intro s1 s2 h
    rw [ratingRank_score_to_rating, ratingRank_score_to_rating]
    split_ifs <;> omega

/-- Claim C3 witness: threshold and monotonicity facts at concrete
scores 85, 10 and 95. -/
theorem score_to_rating_total_monotone_witness :
    score_to_rating 85 = "적극매수" ∧
    ratingRank (score_to_rating 10) ≤ ratingRank (score_to_rating 95) :=
  ⟨(score_to_rating_total_monotone.1 85 (by decide) (by decide)).1 (by decide),
   score_to_rating_total_monotone.2 95 10 (by decide)⟩

/-- Claim C4: for every integer score in [0,100] exactly one of the five
backtest bins contains it (membership tested as `lo ≤ score ≤ hi`), and a
bin contains the score exactly when the Rating Mapper sends that score to
the bin's corresponding rating. -/
theorem backtestBins_partition : ∀ s ∈ Finset.Icc (0:ℤ) 100,
    (backtestBins.countP (fun b => binMember b s)) = 1 ∧
    (∀ p ∈ backtestBins.zip binRatings,
      (binMember p.1 s = true ↔ score_to_rating s = p.2)) := by decide

/-- Claim C4 witness: score 85 lies in exactly one bin, and bin
membership matches the rating at 85. -/
theorem backtestBins_partition_witness :
    (backtestBins.countP (fun b => binMember b 85)) = 1 ∧
    (∀ p ∈ backtestBins.zip binRatings,
      (binMember p.1 85 = true ↔ score_to_rating 85 = p.2)) :=
  backtestBins_partition 85 (by decide)

/-- Claim C5: for every series length shorter than 260+horizon+1 rows the
backtest's data-sufficiency guard returns the typed insufficient-data
failure (no exception: the guard is a total function of the length). -/
theorem backtest_short_series_fails (n horizon : ℕ)
    (h : n < 260 + horizon + 1) :
    backtestLengthGate n horizon = .failure insufficientDataMsg := by
  unfold backtestLengthGate backtest_end_i backtest_start_i
  rw [if_pos]
  omega

/-- Claim C5 witness: a 10-row series with horizon 20 yields the
insufficient-data failure. -/
theorem backtest_short_series_fails_witness :
    backtestLengthGate 10 20 = .failure insufficientDataMsg :=
  backtest_short_series_fails 10 20 (by decide)

/-- Claim C6: on a row where every indicator is undefined the Row Scorer
returns score 50 with an empty reason list, and the Rating Mapper maps 50
to Neutral (중립). -/
theorem allUndefined_scores_neutral :
    score_from_row allUndefinedRow = (50, []) ∧
    score_to_rating (score_from_row allUndefinedRow).1 = "중립" := by
  norm_num [score_from_row, rawScore, reasonsOf, allUndefinedRow, ma20Factor,
    ma60Factor, ma120Factor, alignFactor, rsiFactor, mom20Factor, mom60Factor,
    volRatioFactor, vol20Factor, dd252Factor, pos20Factor, score_to_rating]

/-- Claim C7: whenever rsi14 is defined, the RSI factor moves the raw
score by +10 exactly when rsi14 < 30, by -10 exactly when rsi14 > 70 and
by 0 otherwise, and in all three cases it emits exactly one reason, so the
scorer's reason list is one longer than with rsi14 undefined. -/
theorem rsi_factor_spec (row : IndicatorRow) (r : ℚ) (h : row.rsi14 = some r) :
    rawScore row = rawScore { row with rsi14 := none } +
      (if r < 30 then 10 else if r > 70 then -10 else 0) ∧
    (rsiFactor row).2.length = 1 ∧
    (reasonsOf row).length = (reasonsOf { row with rsi14 := none }).length + 1 := by
  have e1 : rsiFactor { row with rsi14 := none } = (0, []) := rfl
  have e2 : ma20Factor { row with rsi14 := none } = ma20Factor row := rfl
  have e3 : ma60Factor { row with rsi14 := none } = ma60Factor row := rfl
  have e4 : ma120Factor { row with rsi14 := none } = ma120Factor row := rfl
  have e5 : alignFactor { row with rsi14 := none } = alignFactor row := rfl
  have e6 : mom20Factor { row with rsi14 := none } = mom20Factor row := rfl
  have e7 : mom60Factor { row with rsi14 := none } = mom60Factor row := rfl
  have e8 : volRatioFactor { row with rsi14 := none } = volRatioFactor row := rfl
  have e9 : vol20Factor { row with rsi14 := none } = vol20Factor row := rfl
  have e10 : dd252Factor { row with rsi14 := none } = dd252Factor row := rfl
  have e11 : pos20Factor { row with rsi14 := none } = pos20Factor row := rfl
  have hr : rsiFactor row =
      if r < 30 then (10, [.rsiOversold r])
      else if r > 70 then (-10, [.rsiOverbought r])
      else (0, [.rsiNeutral r]) := by
    simp [rsiFactor, h]
  refine ⟨?_, ?_, ?_⟩
  · simp only [rawScore, e1, e2, e3, e4, e5, e6, e7, e8, e9, e10, e11, hr]
    split_ifs <;> ring
  · rw [hr] ; split_ifs <;> rfl
  · simp only [reasonsOf, e1, e2, e3, e4, e5, e6, e7, e8, e9, e10, e11, hr,
      List.length_append]
    split_ifs <;> simp <;> omega

/-- Claim C7 witness: at the scenario-1 row (rsi14 = 50, the neutral
case) the RSI factor adds 0 yet contributes one reason. -/
theorem rsi_factor_spec_witness :
    rawScore scenario1Row = rawScore { scenario1Row with rsi14 := none } +
      (if (50:ℚ) < 30 then 10 else if (50:ℚ) > 70 then -10 else 0) ∧
    (rsiFactor scenario1Row).2.length = 1 ∧
    (reasonsOf scenario1Row).length =
      (reasonsOf { scenario1Row with rsi14 := none }).length + 1 :=
  rsi_factor_spec scenario1Row 50 rfl

/-- Claim C8: when the 20-day rolling range has zero width
(high20 = low20) the epsilon guard keeps the pos20 denominator nonzero —
no division by zero — and pos20 evaluates to the finite value
`(close - low20) * 1e9`. -/
theorem pos20_eps_guard (close low20 high20 : ℚ) (h : high20 = low20) :
    high20 - low20 + pos20Eps ≠ 0 ∧
    pos20Of close low20 high20 = (close - low20) * 1000000000 := by
  subst h
  constructor
  · norm_num [pos20Eps]
  · rw [pos20Of, pos20Eps]
    norm_num
    rw [div_eq_mul_inv]
    norm_num

/-- Claim C8 witness: at close=5, low20=high20=3 the denominator is
nonzero and pos20 is the finite value 2e9. -/
theorem pos20_eps_guard_witness :
    (3:ℚ) - 3 + pos20Eps ≠ 0 ∧
    pos20Of 5 3 3 = ((5:ℚ) - 3) * 1000000000 :=
  pos20_eps_guard 5 3 3 rfl

/-- Claim C9: when a moving average is defined and close equals it
exactly, the tie falls in the `else` branch of the strict `close > ma`
comparison: the factor subtracts its delta (-8, -10, -6) and emits the
below-the-MA reason. -/
theorem ma_tie_counts_as_below (row : IndicatorRow) (m : ℚ)
    (hc : row.close = m) :
    (row.ma20 = some m → ma20Factor row = (-8, [.ma20Below])) ∧
    (row.ma60 = some m → ma60Factor row = (-10, [.ma60Below])) ∧
    (row.ma120 = some m → ma120Factor row = (-6, [.ma120Below])) := by
  refine ⟨fun h => ?_, fun h => ?_, fun h => ?_⟩ <;>
    simp [ma20Factor, ma60Factor, ma120Factor, h, hc]

/-- Claim C9 witness: on a row with close = 100 and all three MAs equal
to 100, every MA factor subtracts its delta and reports below. -/
theorem ma_tie_counts_as_below_witness :
    ma20Factor tieRow = (-8, [.ma20Below]) ∧
    ma60Factor tieRow = (-10, [.ma60Below]) ∧
    ma120Factor tieRow = (-6, [.ma120Below]) :=
  ⟨(ma_tie_counts_as_below tieRow 100 rfl).1 rfl,
   (ma_tie_counts_as_below tieRow 100 rfl).2.1 rfl,
   (ma_tie_counts_as_below tieRow 100 rfl).2.2 rfl⟩

/-- Claim C10: the backtest guard fails exactly when
`len - horizon - 1 ≤ 260`, i.e. `len ≤ 261 + horizon`; a series of
exactly 260+horizon+1 rows still fails, and 262+horizon rows is the first
length that proceeds past the guard. -/
theorem backtest_gate_boundary (n horizon : ℕ) :
    (backtestLengthGate n horizon = .failure insufficientDataMsg ↔
      (n : ℤ) - horizon - 1 ≤ 260) ∧
    backtestLengthGate (260 + horizon + 1) horizon = .failure insufficientDataMsg ∧
    backtestLengthGate (262 + horizon) horizon = .proceed := by
  unfold backtestLengthGate backtest_end_i backtest_start_i
  refine ⟨?_, ?_, ?_⟩
  · split_ifs with h <;> simp [h]
  · rw [if_pos] ; push_cast ; omega
  · rw [if_neg] ; push_cast ; omega

/-- Claim C10 witness: at length 281 with horizon 20 the guard still
fails; at length 282 it proceeds. -/
theorem backtest_gate_boundary_witness :
    backtestLengthGate (260 + 20 + 1) 20 = .failure insufficientDataMsg ∧
    backtestLengthGate (262 + 20) 20 = .proceed :=
  ⟨(backtest_gate_boundary (260 + 20 + 1) 20).2.1,
   (backtest_gate_boundary (262 + 20) 20).2.2⟩
